import Mathlib

/-!
Shallow embedding of the token-lifecycle core of a Node/Express JWT
authentication service (`src/routes/userRoutes.js` together with the
Mongoose schemas in `src/models/`).

Modelling conventions:
- JSON Web Tokens (`jsonwebtoken`): a token is a signed payload
  `{ userId, iat, exp? }` together with the secret key it was signed with.
  `jwt.sign(payload, key, { expiresIn })` becomes `jwtSign`; `jwt.verify`
  becomes `jwtVerify`, which fails with `invalidSignature` when the key
  differs and with `expired` when the embedded expiry has passed
  (the `jsonwebtoken` library rejects when `exp <= now`).
- `bcrypt`: an idealised salted one-way hash. `bcrypt.hash(pw, 10)` becomes
  `bcryptHash salt pw` where the salt is drawn nondeterministically per
  call (passed as a parameter); `bcrypt.compare` succeeds exactly on the
  hashed plaintext.  The digest is a separate type from plaintext strings.
- MongoDB/Mongoose: the stores are lists of records; `findOne` is
  `List.find?` (first match), `findOneAndDelete`/`findByIdAndDelete`
  delete the first match (`deleteFirst`), `deleteMany` is a filter.
  The `userSchema` declares `lowercase: true` and `trim: true` on the
  email path, so emails are normalised (`normalizeEmail`) both when a
  user document is saved and when an email query filter is run.
- JS falsiness of request-body string fields (`!email`): a field is an
  `Option String`, falsy when absent or the empty string.
- The clock is a single `Nat` in milliseconds (`Date.now()`); the
  `expiresIn: "1h"` option is 3600000 ms on this clock, 14 days is
  14*24*60*60*1000 ms.
-/

namespace JwtAuth

/-- Decoded JWT payload: the claims the routes sign (`{ userId: ... }`
plus the issued-at and optional expiry claims `jsonwebtoken` adds). -/
structure Payload where
  userId : Nat
  iat : Nat
  exp : Option Nat
deriving DecidableEq, Repr

/-- Model of a signed JWT string: the payload plus the secret key used to
sign it.  Two tokens are equal exactly when payload and key agree, which
matches equality of the underlying compact serialisations. -/
structure Jwt where
  payload : Payload
  key : String
deriving DecidableEq, Repr

/-- Failure modes of `jwt.verify`. -/
inductive JwtError where
  | invalidSignature
  | expired
deriving DecidableEq, Repr

/-- Model of `jwt.sign(\x7b userId \x7d, key, \x7b expiresIn: ttl \x7d)` at time
`now`; `ttl = none` signs without an embedded expiry (the refresh-token
case). -/
def jwtSign (userId : Nat) (key : String) (now : Nat) (ttl : Option Nat) : Jwt :=
  ⟨⟨userId, now, ttl.map (now + ·)⟩, key⟩

/-- Model of `jwt.verify(token, key)` at time `now`: the signature check
is key equality; when an `exp` claim is present it must be strictly in
the future. -/
def jwtVerify (t : Jwt) (key : String) (now : Nat) : Except JwtError Payload :=
  if t.key = key then
    match t.payload.exp with
    | some e => if e ≤ now then .error .expired else .ok t.payload
    | none => .ok t.payload
  else .error .invalidSignature

/-- Model of a bcrypt digest: the hashed plaintext together with the salt
used, a distinct type from plaintext strings. -/
structure BHash where
  plain : String
  salt : Nat
deriving DecidableEq, Repr

/-- Model of `bcrypt.hash(plain, 10)`: the salt is chosen per call and
supplied as a parameter, so two hashes of the same plaintext may differ. -/
def bcryptHash (salt : Nat) (plain : String) : BHash :=
  ⟨plain, salt⟩

/-- Model of `bcrypt.compare(plain, digest)`. -/
def bcryptCompare (plain : String) (h : BHash) : Bool :=
  h.plain == plain

/-- The process environment: the three purpose-specific signing secrets
read from `process.env`. -/
structure Env where
  JWT_SECRET : String
  REFRESH_TOKEN_SECRET : String
  RESET_TOKEN_SECRET : String
deriving DecidableEq, Repr

/-- Drop whitespace from both ends of a character list (the `trim: true`
schema setter). -/
def trimChars (l : List Char) : List Char :=
  ((l.dropWhile (·.isWhitespace)).reverse.dropWhile (·.isWhitespace)).reverse

/-- Email normalisation declared by `userSchema` (`lowercase: true`,
`trim: true`): applied when a user document is saved and when an email
query filter runs through the schema setters. -/
def normalizeEmail (e : String) : String :=
  ⟨(trimChars e.data).map Char.toLower⟩

/-- A `User` document (`src/models/userModel.js`): Mongo `_id`, email,
bcrypt password digest. -/
structure User where
  id : Nat
  email : String
  password : BHash
deriving DecidableEq, Repr

/-- A `RefreshToken` or `ResetToken` document
(`src/models/refreshTokenModel.js`, `src/models/resetTokenModel.js`):
token value, owning user `_id`, ledger expiry timestamp. -/
structure TokenRecord where
  token : Jwt
  user : Nat
  expiryDate : Nat
deriving DecidableEq, Repr

/-- The persistent state: the three MongoDB collections, plus a counter
supplying fresh `_id`s for new user documents. -/
structure DB where
  users : List User
  refreshTokens : List TokenRecord
  resetTokens : List TokenRecord
  nextId : Nat
deriving DecidableEq, Repr

/-- Delete the first record matching `p` (`findOneAndDelete` /
`findByIdAndDelete`). -/
def deleteFirst (p : α → Bool) : List α → List α
  | [] => []
  | x :: xs => if p x then xs else x :: deleteFirst p xs

/-- JS falsiness of an optional string request field: absent or empty. -/
def falsy : Option String → Bool
  | none => true
  | some s => s == ""

/-- HTTP response bodies the routes produce: `res.json(\x7b message \x7d)`,
`res.send("...")`, and the token-carrying JSON bodies. -/
inductive RespBody where
  | message : String → RespBody
  | text : String → RespBody
  | signedIn : String → Jwt → Jwt → RespBody
  | access : Jwt → RespBody
  | resetIssued : String → Jwt → RespBody
  | protectedInfo : String → Payload → RespBody
deriving DecidableEq, Repr

/-- An HTTP response: status code and body. -/
structure Response where
  status : Nat
  body : RespBody
deriving DecidableEq, Repr

/-- `POST /sign-up`: validates presence of both fields, rejects an email
already held by the store, otherwise hashes the password and persists one
new user (email normalised by the schema setters). -/
def signUp (db : DB) (salt : Nat) (email password : Option String) : Response × DB :=
  if falsy email || falsy password then
    (⟨400, .message "Email and password are required."⟩, db)
  else
    match db.users.find? (fun u => u.email == normalizeEmail (email.getD "")) with
    | some _ => (⟨409, .message "Email already in use."⟩, db)
    | none =>
      let user : User :=
        ⟨db.nextId, normalizeEmail (email.getD ""), bcryptHash salt (password.getD "")⟩
      (⟨201, .message "User created successfully."⟩,
        { db with users := db.users ++ [user], nextId := db.nextId + 1 })

/-- `POST /sign-in`: looks the user up by email, compares the password
against the stored digest (identical 401 response for both failure
modes), then issues a 1-hour access token, a non-expiring refresh token,
and persists the refresh token with a 14-day ledger expiry. -/
def signIn (env : Env) (db : DB) (now : Nat) (email password : Option String) :
    Response × DB :=
  if falsy email || falsy password then
    (⟨400, .message "Email and password are required."⟩, db)
  else
    match db.users.find? (fun u => u.email == normalizeEmail (email.getD "")) with
    | none => (⟨401, .message "Invalid credentials."⟩, db)
    | some user =>
      if bcryptCompare (password.getD "") user.password then
        let token := jwtSign user.id env.JWT_SECRET now (some 3600000)
        let refreshToken := jwtSign user.id env.REFRESH_TOKEN_SECRET now none
        let newRefreshToken : TokenRecord :=
          ⟨refreshToken, user.id, now + 14 * 24 * 60 * 60 * 1000⟩
        (⟨200, .signedIn "User logged in successfully." token refreshToken⟩,
          { db with refreshTokens := db.refreshTokens ++ [newRefreshToken] })
      else
        (⟨401, .message "Invalid credentials."⟩, db)

/-- `POST /token`: requires the refresh token, looks it up in the ledger
(rejecting a missing record or one whose `expiryDate <= new Date()`),
verifies it under `REFRESH_TOKEN_SECRET`, and on success returns a fresh
1-hour access token for the decoded subject.  Never writes the DB. -/
def tokenRoute (env : Env) (db : DB) (now : Nat) (refreshToken : Option Jwt) :
    Response × DB :=
  match refreshToken with
  | none => (⟨400, .message "Refresh token is required."⟩, db)
  | some tok =>
    match db.refreshTokens.find? (fun r => r.token == tok) with
    | none => (⟨401, .text "Invalid or expired refresh token"⟩, db)
    | some storedRefreshToken =>
      if storedRefreshToken.expiryDate ≤ now then
        (⟨401, .text "Invalid or expired refresh token"⟩, db)
      else
        match jwtVerify tok env.REFRESH_TOKEN_SECRET now with
        | .error _ => (⟨403, .text "Refresh token verification failed"⟩, db)
        | .ok decoded =>
          (⟨200, .access (jwtSign decoded.userId env.JWT_SECRET now (some 3600000))⟩, db)

/-- `POST /reset-password`: requires the email, 404s when no user holds
it, otherwise issues a 1-hour reset token and persists it with a 1-hour
ledger expiry, returning the token in the response. -/
def resetPasswordRequest (env : Env) (db : DB) (now : Nat) (email : Option String) :
    Response × DB :=
  if falsy email then
    (⟨400, .message "Email is required."⟩, db)
  else
    match db.users.find? (fun u => u.email == normalizeEmail (email.getD "")) with
    | none => (⟨404, .message "User not found."⟩, db)
    | some user =>
      let resetToken := jwtSign user.id env.RESET_TOKEN_SECRET now (some 3600000)
      let newResetToken : TokenRecord := ⟨resetToken, user.id, now + 1 * 60 * 60 * 1000⟩
      (⟨200, .resetIssued "Reset token generated successfully." resetToken⟩,
        { db with resetTokens := db.resetTokens ++ [newResetToken] })

/-- `POST /reset-password/:token`: requires the new password, looks the
token up in the ledger (rejecting absence or `expiryDate <= new Date()`),
verifies it under `RESET_TOKEN_SECRET`, resolves the decoded user, then
stores a fresh hash of the new password and deletes the token's ledger
record (`findOneAndDelete`). -/
def resetPasswordConfirm (env : Env) (db : DB) (now salt : Nat) (token : Jwt)
    (password : Option String) : Response × DB :=
  if falsy password then
    (⟨400, .message "Password is required."⟩, db)
  else
    match db.resetTokens.find? (fun r => r.token == token) with
    | none => (⟨401, .text "Invalid or expired reset token"⟩, db)
    | some storedResetToken =>
      if storedResetToken.expiryDate ≤ now then
        (⟨401, .text "Invalid or expired reset token"⟩, db)
      else
        match jwtVerify token env.RESET_TOKEN_SECRET now with
        | .error _ => (⟨403, .text "Reset token verification failed"⟩, db)
        | .ok decoded =>
          match db.users.find? (fun u => u.id == decoded.userId) with
          | none => (⟨404, .message "User not found."⟩, db)
          | some user =>
            let hashedPassword := bcryptHash salt (password.getD "")
            (⟨200, .message "Password reset successful."⟩,
              { db with
                  users := db.users.map (fun u =>
                    if u.id == user.id then { u with password := hashedPassword } else u)
                  resetTokens := deleteFirst (fun r => r.token == token) db.resetTokens })

/-- Outcome of the `authenticateToken` middleware: a denial response, or
the decoded payload attached to `req.user` for the downstream handler. -/
inductive GuardResult where
  | denied : Response → GuardResult
  | allowed : Payload → GuardResult
deriving DecidableEq, Repr

/-- The `Authorization` header as the middleware consumes it: `none` when
the header is absent, `some none` when its token segment after the first
space is absent or empty, `some (some t)` otherwise (the scheme word is
never inspected). -/
def AuthHeader := Option (Option Jwt)

/-- `authenticateToken` middleware: 401 when the header or its token
segment is missing, 403 when `jwt.verify` under `JWT_SECRET` fails,
otherwise the decoded payload is handed to the next handler.  It takes no
database argument: the ledger is never consulted. -/
def authenticateToken (env : Env) (now : Nat) (header : AuthHeader) : GuardResult :=
  match header with
  | none => .denied ⟨401, .text "Authorization failed. No access token."⟩
  | some none => .denied ⟨401, .text "Authorization failed. No access token."⟩
  | some (some token) =>
    match jwtVerify token env.JWT_SECRET now with
    | .error _ => .denied ⟨403, .text "Invalid token"⟩
    | .ok user => .allowed user

/-- `DELETE /delete-user`: behind `authenticateToken`; deletes the user
document with the authenticated `_id` (`findByIdAndDelete`) and all of
that user's refresh-token records (`deleteMany`).  Reset-token records
are untouched. -/
def deleteUserRoute (env : Env) (db : DB) (now : Nat) (header : AuthHeader) :
    Response × DB :=
  match authenticateToken env now header with
  | .denied r => (r, db)
  | .allowed user =>
    (⟨200, .message "User deleted successfully."⟩,
      { db with
          users := deleteFirst (fun u => u.id == user.userId) db.users
          refreshTokens := db.refreshTokens.filter (fun r => !(r.user == user.userId)) })

/-- `GET /protected`: behind `authenticateToken`; echoes the decoded
payload. -/
def protectedRoute (env : Env) (db : DB) (now : Nat) (header : AuthHeader) :
    Response × DB :=
  match authenticateToken env now header with
  | .denied r => (r, db)
  | .allowed user => (⟨200, .protectedInfo "This is a protected route" user⟩, db)

/-! Concrete instances used by the witness theorems. -/

/-- Concrete environment with three pairwise-distinct purpose keys. -/
def envA : Env := ⟨"access-key", "refresh-key", "reset-key"⟩

/-- A refresh token for user 7, as `signIn` issues it at time 0. -/
def tokA : Jwt := jwtSign 7 "refresh-key" 0 none

/-- A reset token for user 7, as `resetPasswordRequest` issues it at time 0. -/
def tokR : Jwt := jwtSign 7 "reset-key" 0 (some 3600000)

/-- A concrete database: one user, one refresh-token record, one
reset-token record. -/
def dbA : DB :=
  { users := [⟨7, "a@x.com", bcryptHash 3 "pw123"⟩]
    refreshTokens := [⟨tokA, 7, 100⟩]
    resetTokens := [⟨tokR, 7, 50⟩]
    nextId := 8 }

/-! Helper lemmas about the embedded operations. -/

theorem jwtVerify_ok_eq_payload {t : Jwt} {k : String} {now : Nat} {p : Payload}
    (h : jwtVerify t k now = .ok p) : p = t.payload := by
  unfold jwtVerify at h
  split at h
  · split at h
    · split at h
      · exact absurd h (by simp)
      · simpa using (Except.ok.inj h).symm
    · simpa using (Except.ok.inj h).symm
  · exact absurd h (by simp)

theorem find?_append_of_none {α : Type} {p : α → Bool} {l₁ l₂ : List α}
    (h : l₁.find? p = none) : (l₁ ++ l₂).find? p = l₂.find? p := by
  rw [List.find?_append, h, Option.none_or]

theorem mem_deleteFirst_of_mem {α : Type} {p : α → Bool} {a : α} {l : List α}
    (ha : a ∈ l) (hpa : p a = false) : a ∈ deleteFirst p l := by
  induction l with
  | nil => simp at ha
  | cons x xs ih =>
    rcases List.mem_cons.mp ha with rfl | hmem
    · simp [deleteFirst, hpa]
    · unfold deleteFirst
      split
      · exact hmem
      · exact List.mem_cons_of_mem _ (ih hmem)

theorem find?_deleteFirst_of_countP_le_one {α : Type} {p : α → Bool} {l : List α}
    (h : l.countP p ≤ 1) : (deleteFirst p l).find? p = none := by
  induction l with
  | nil => rfl
  | cons x xs ih =>
    rw [List.countP_cons] at h
    unfold deleteFirst
    split
    · rename_i hx
      rw [List.find?_eq_none]
      intro a ha hpa
      rw [hx, if_pos rfl] at h
      have hzero : xs.countP p = 0 := by omega
      exact (List.countP_eq_zero.mp hzero a ha) hpa
    · rename_i hx
      rw [List.find?_cons]
      simp only [Bool.not_eq_true] at hx
      rw [hx]
      exact ih (by omega)

theorem deleteFirst_id_ne {l : List User} {uid : Nat}
    (hp : l.Pairwise (fun a b => a.id ≠ b.id)) :
    ∀ u ∈ deleteFirst (fun u => u.id == uid) l, u.id ≠ uid := by
  induction l with
  | nil => simp [deleteFirst]
  | cons x xs ih =>
    rw [List.pairwise_cons] at hp
    intro u hu
    unfold deleteFirst at hu
    split at hu
    · rename_i hx
      have hxid : x.id = uid := by simpa using hx
      have := hp.1 u hu
      omega
    · rcases List.mem_cons.mp hu with rfl | hmem
      · rename_i hx
        simpa using hx
      · exact ih hp.2 u hmem

theorem find?_map_update_password {uid : Nat} {h : BHash} {l : List User} {user : User}
    (hfind : l.find? (fun u => u.id == uid) = some user) :
    (l.map (fun u => if u.id == user.id then { u with password := h } else u)).find?
      (fun u => u.id == uid) = some { user with password := h } := by
  have huid : user.id = uid := by simpa using List.find?_some hfind
  induction l with
  | nil => simp at hfind
  | cons x xs ih =>
    by_cases hx : (x.id == uid) = true
    · rw [@List.find?_cons_of_pos User (fun u => u.id == uid) x xs hx] at hfind
      have hxu : x = user := Option.some.inj hfind
      subst hxu
      rw [List.map_cons, if_pos (by simp)]
      exact List.find?_cons_of_pos _ (by simpa using huid)
    · rw [@List.find?_cons_of_neg User (fun u => u.id == uid) x xs hx] at hfind
      have hne : ¬ (x.id == user.id) = true := by
        rw [huid]; exact hx
      rw [List.map_cons, if_neg hne]
      rw [@List.find?_cons_of_neg User (fun u => u.id == uid) x _ hx]
      exact ih hfind

/-! Claim theorems. -/

/-- C1: `POST /token` with a present refresh token fails 401 "Invalid or
expired refresh token" when no ledger record holds the token or the
record's ledger expiry has passed; fails 403 "Refresh token verification
failed" when verification under the refresh key fails; otherwise returns
a new 1-hour access token whose subject equals the refresh token's
subject.  In every case the database — in particular the token's ledger
record — is unchanged. -/
theorem tokenRoute_refresh_spec (env : Env) (db : DB) (now : Nat) (tok : Jwt) :
    (db.refreshTokens.find? (fun r => r.token == tok) = none →
      tokenRoute env db now (some tok) =
        (⟨401, .text "Invalid or expired refresh token"⟩, db)) ∧
    (∀ stored, db.refreshTokens.find? (fun r => r.token == tok) = some stored →
      stored.expiryDate ≤ now →
      tokenRoute env db now (some tok) =
        (⟨401, .text "Invalid or expired refresh token"⟩, db)) ∧
    (∀ stored e, db.refreshTokens.find? (fun r => r.token == tok) = some stored →
      now < stored.expiryDate →
      jwtVerify tok env.REFRESH_TOKEN_SECRET now = .error e →
      tokenRoute env db now (some tok) =
        (⟨403, .text "Refresh token verification failed"⟩, db)) ∧
    (∀ stored p, db.refreshTokens.find? (fun r => r.token == tok) = some stored →
      now < stored.expiryDate →
      jwtVerify tok env.REFRESH_TOKEN_SECRET now = .ok p →
      tokenRoute env db now (some tok) =
        (⟨200, .access (jwtSign p.userId env.JWT_SECRET now (some 3600000))⟩, db) ∧
      p.userId = tok.payload.userId) ∧
    (tokenRoute env db now (some tok)).2 = db := by
  refine ⟨?_, ?_, ?_, ?_, ?_⟩
  · intro h
    simp [tokenRoute, h]
  · intro stored h hexp
    simp [tokenRoute, h, hexp]
  · intro stored e h hexp hver
    simp [tokenRoute, h, Nat.not_le.mpr hexp, hver]
  · intro stored p h hexp hver
    refine ⟨by simp [tokenRoute, h, Nat.not_le.mpr hexp, hver], ?_⟩
    rw [jwtVerify_ok_eq_payload hver]
  · unfold tokenRoute
    split
    · rfl
    · split
      · rfl
      · split
        · rfl
        · split <;> rfl

/-- Witness for C1: in the concrete state `dbA`, before the ledger
expiry, the refresh token `tokA` yields a fresh access token for user 7;
after removing the ledger record, the same call fails 401. -/
theorem tokenRoute_refresh_spec_witness :
    tokenRoute envA dbA 5 (some tokA) =
      (⟨200, .access (jwtSign 7 "access-key" 5 (some 3600000))⟩, dbA) ∧
    tokenRoute envA { dbA with refreshTokens := [] } 5 (some tokA) =
      (⟨401, .text "Invalid or expired refresh token"⟩, { dbA with refreshTokens := [] }) := by
  constructor
  · exact ((tokenRoute_refresh_spec envA dbA 5 tokA).2.2.2.1 ⟨tokA, 7, 100⟩
      ⟨7, 0, none⟩ (by decide) (by decide) (by rfl)).1
  · exact (tokenRoute_refresh_spec envA { dbA with refreshTokens := [] } 5 tokA).1 (by decide)

/-- C2: single use of reset tokens.  When the ledger holds exactly one
record for a reset token that has not passed its ledger expiry, and the
token verifies to an existing user, `POST /reset-password/:token` with a
non-empty new password succeeds: it stores a hash of the new password on
that user and deletes the token's ledger record; a second call with the
same token then fails 401 "Invalid or expired reset token". -/
theorem resetPasswordConfirm_single_use (env : Env) (db : DB) (now now₂ salt salt₂ : Nat)
    (tok : Jwt) (pw pw₂ : String) (stored : TokenRecord) (decoded : Payload) (user : User)
    (hpw : pw ≠ "")
    (hfind : db.resetTokens.find? (fun r => r.token == tok) = some stored)
    (hexp : now < stored.expiryDate)
    (hver : jwtVerify tok env.RESET_TOKEN_SECRET now = .ok decoded)
    (huser : db.users.find? (fun u => u.id == decoded.userId) = some user)
    (hcount : db.resetTokens.countP (fun r => r.token == tok) ≤ 1) :
    resetPasswordConfirm env db now salt tok (some pw) =
      (⟨200, .message "Password reset successful."⟩,
        { db with
            users := db.users.map (fun u =>
              if u.id == user.id then { u with password := bcryptHash salt pw } else u)
            resetTokens := deleteFirst (fun r => r.token == tok) db.resetTokens }) ∧
    (resetPasswordConfirm env db now salt tok (some pw)).2.users.find?
        (fun u => u.id == decoded.userId) =
      some { user with password := bcryptHash salt pw } ∧
    (resetPasswordConfirm env db now salt tok (some pw)).2.resetTokens.find?
        (fun r => r.token == tok) = none ∧
    (pw₂ ≠ "" →
      resetPasswordConfirm env (resetPasswordConfirm env db now salt tok (some pw)).2
          now₂ salt₂ tok (some pw₂) =
        (⟨401, .text "Invalid or expired reset token"⟩,
          (resetPasswordConfirm env db now salt tok (some pw)).2)) := by
  have hnone : (deleteFirst (fun r => r.token == tok) db.resetTokens).find?
      (fun r => r.token == tok) = none :=
    find?_deleteFirst_of_countP_le_one hcount
  have hmain : resetPasswordConfirm env db now salt tok (some pw) =
      (⟨200, .message "Password reset successful."⟩,
        { db with
            users := db.users.map (fun u =>
              if u.id == user.id then { u with password := bcryptHash salt pw } else u)
            resetTokens := deleteFirst (fun r => r.token == tok) db.resetTokens }) := by
    simp [resetPasswordConfirm, falsy, hpw, hfind, Nat.not_le.mpr hexp, hver, huser]
  refine ⟨hmain, ?_, ?_, ?_⟩
  · rw [hmain]
    exact find?_map_update_password huser
  · rw [hmain]
    exact hnone
  · intro hpw₂
    rw [hmain]
    simp [resetPasswordConfirm, falsy, hpw₂, hnone]

/-- Witness for C2: in the concrete state `dbA`, confirming the reset
with token `tokR` succeeds once and the identical second call fails 401. -/
theorem resetPasswordConfirm_single_use_witness :
    (resetPasswordConfirm envA dbA 10 4 tokR (some "newpw")).1 =
      ⟨200, .message "Password reset successful."⟩ ∧
    resetPasswordConfirm envA (resetPasswordConfirm envA dbA 10 4 tokR (some "newpw")).2
        20 5 tokR (some "again") =
      (⟨401, .text "Invalid or expired reset token"⟩,
        (resetPasswordConfirm envA dbA 10 4 tokR (some "newpw")).2) := by
  have h := resetPasswordConfirm_single_use envA dbA 10 20 4 5 tokR "newpw" "again"
    ⟨tokR, 7, 50⟩ ⟨7, 0, some 3600000⟩ ⟨7, "a@x.com", bcryptHash 3 "pw123"⟩
    (by decide) (by decide) (by decide) (by rfl) (by decide) (by decide)
  exact ⟨by rw [h.1], h.2.2.2 (by decide)⟩

/-- C3: email uniqueness over normalised emails.  When some stored user
holds an email, `POST /sign-up` with any email that equals it after the
schema's lowercasing and trimming — in particular one differing only in
letter case or surrounding whitespace — fails 409 "Email already in use."
and leaves the whole database, hence the existing user record,
unchanged. -/
theorem signUp_email_uniqueness (db : DB) (salt : Nat) (e p : String) (u : User)
    (hmem : u ∈ db.users) (hnorm : normalizeEmail e = u.email)
    (he : e ≠ "") (hp : p ≠ "") :
    (signUp db salt (some e) (some p)).1 = ⟨409, .message "Email already in use."⟩ ∧
    (signUp db salt (some e) (some p)).2 = db := by
  have hsome : (db.users.find? (fun v => v.email == normalizeEmail e)).isSome := by
    rw [List.find?_isSome]
    exact ⟨u, hmem, by simp [hnorm]⟩
  obtain ⟨v, hv⟩ := Option.isSome_iff_exists.mp hsome
  constructor <;> simp [signUp, falsy, he, hp, hv]

/-- Witness for C3: `dbA` stores `a@x.com`; signing up with
`"A@X.com "` (case and whitespace variant) is rejected 409 with the
database unchanged. -/
theorem signUp_email_uniqueness_witness :
    (signUp dbA 9 (some "A@X.com ") (some "whatever")).1 =
      ⟨409, .message "Email already in use."⟩ ∧
    (signUp dbA 9 (some "A@X.com ") (some "whatever")).2 = dbA :=
  signUp_email_uniqueness dbA 9 "A@X.com " "whatever"
    ⟨7, "a@x.com", bcryptHash 3 "pw123"⟩ (by decide) (by decide) (by decide) (by decide)

/-- C4: purpose keys are mutually exclusive.  With the three signing
secrets pairwise distinct, a token of any one purpose — shaped exactly as
the routes issue them: 1-hour access tokens under `JWT_SECRET`,
non-expiring refresh tokens under `REFRESH_TOKEN_SECRET`, 1-hour reset
tokens under `RESET_TOKEN_SECRET` — fails `jwtVerify` with an invalid
signature under either of the other two purposes' keys, at any
verification time. -/
theorem cross_purpose_tokens_never_verify (env : Env) (uid now now' : Nat)
    (h1 : env.JWT_SECRET ≠ env.REFRESH_TOKEN_SECRET)
    (h2 : env.JWT_SECRET ≠ env.RESET_TOKEN_SECRET)
    (h3 : env.REFRESH_TOKEN_SECRET ≠ env.RESET_TOKEN_SECRET) :
    jwtVerify (jwtSign uid env.JWT_SECRET now (some 3600000))
        env.REFRESH_TOKEN_SECRET now' = .error .invalidSignature ∧
    jwtVerify (jwtSign uid env.JWT_SECRET now (some 3600000))
        env.RESET_TOKEN_SECRET now' = .error .invalidSignature ∧
    jwtVerify (jwtSign uid env.REFRESH_TOKEN_SECRET now none)
        env.JWT_SECRET now' = .error .invalidSignature ∧
    jwtVerify (jwtSign uid env.REFRESH_TOKEN_SECRET now none)
        env.RESET_TOKEN_SECRET now' = .error .invalidSignature ∧
    jwtVerify (jwtSign uid env.RESET_TOKEN_SECRET now (some 3600000))
        env.JWT_SECRET now' = .error .invalidSignature ∧
    jwtVerify (jwtSign uid env.RESET_TOKEN_SECRET now (some 3600000))
        env.REFRESH_TOKEN_SECRET now' = .error .invalidSignature := by
  refine ⟨?_, ?_, ?_, ?_, ?_, ?_⟩ <;>
    simp [jwtVerify, jwtSign, h1, h2, h3, Ne.symm h1, Ne.symm h2, Ne.symm h3]

/-- Witness for C4: under the concrete environment `envA` each of the six
cross-purpose verifications fails with an invalid signature. -/
theorem cross_purpose_tokens_never_verify_witness :
    jwtVerify (jwtSign 7 envA.JWT_SECRET 0 (some 3600000))
        envA.REFRESH_TOKEN_SECRET 5 = .error .invalidSignature ∧
    jwtVerify (jwtSign 7 envA.RESET_TOKEN_SECRET 0 (some 3600000))
        envA.JWT_SECRET 5 = .error .invalidSignature :=
  ⟨(cross_purpose_tokens_never_verify envA 7 0 5
      (by decide) (by decide) (by decide)).1,
    (cross_purpose_tokens_never_verify envA 7 0 5
      (by decide) (by decide) (by decide)).2.2.2.2.1⟩

/-- C5: authentication does not leak account existence.  For non-empty
credentials, the full response of `POST /sign-in` when no user holds the
email is identical — same status, same body — to the response when the
user exists but the password comparison fails: both are
401 "Invalid credentials.", and neither call changes the database. -/
theorem signIn_indistinguishable_error (env : Env) (db₁ db₂ : DB) (now₁ now₂ : Nat)
    (e₁ p₁ e₂ p₂ : String) (u : User)
    (he₁ : e₁ ≠ "") (hp₁ : p₁ ≠ "") (he₂ : e₂ ≠ "") (hp₂ : p₂ ≠ "")
    (hnone : db₁.users.find? (fun v => v.email == normalizeEmail e₁) = none)
    (hsome : db₂.users.find? (fun v => v.email == normalizeEmail e₂) = some u)
    (hbad : bcryptCompare p₂ u.password = false) :
    (signIn env db₁ now₁ (some e₁) (some p₁)).1 =
      (signIn env db₂ now₂ (some e₂) (some p₂)).1 ∧
    (signIn env db₁ now₁ (some e₁) (some p₁)).1 = ⟨401, .message "Invalid credentials."⟩ ∧
    (signIn env db₁ now₁ (some e₁) (some p₁)).2 = db₁ ∧
    (signIn env db₂ now₂ (some e₂) (some p₂)).2 = db₂ := by
  have g₁ : signIn env db₁ now₁ (some e₁) (some p₁) =
      (⟨401, .message "Invalid credentials."⟩, db₁) := by
    simp [signIn, falsy, he₁, hp₁, hnone]
  have g₂ : signIn env db₂ now₂ (some e₂) (some p₂) =
      (⟨401, .message "Invalid credentials."⟩, db₂) := by
    simp [signIn, falsy, he₂, hp₂, hsome, hbad]
  exact ⟨by rw [g₁, g₂], by rw [g₁], by rw [g₁], by rw [g₂]⟩

/-- Witness for C5: against `dbA`, signing in with an unknown email and
signing in with the stored email but a wrong password produce the very
same 401 response. -/
theorem signIn_indistinguishable_error_witness :
    (signIn envA dbA 3 (some "b@x.com") (some "pw123")).1 =
      (signIn envA dbA 4 (some "a@x.com") (some "wrong")).1 ∧
    (signIn envA dbA 3 (some "b@x.com") (some "pw123")).1 =
      ⟨401, .message "Invalid credentials."⟩ :=
  ⟨(signIn_indistinguishable_error envA dbA dbA 3 4 "b@x.com" "pw123" "a@x.com" "wrong"
      ⟨7, "a@x.com", bcryptHash 3 "pw123"⟩
      (by decide) (by decide) (by decide) (by decide)
      (by decide) (by decide) (by decide)).1,
    (signIn_indistinguishable_error envA dbA dbA 3 4 "b@x.com" "pw123" "a@x.com" "wrong"
      ⟨7, "a@x.com", bcryptHash 3 "pw123"⟩
      (by decide) (by decide) (by decide) (by decide)
      (by decide) (by decide) (by decide)).2.1⟩

/-- C6: `POST /sign-up` fails 400 (no user created) whenever the email
or password field is absent or empty; fails 409 when the store already
holds the normalised email, whatever the (non-empty) password; otherwise
persists exactly one new user whose stored password is a bcrypt digest of
the submitted plaintext (a `BHash`, not the plaintext string itself)
verifying against that plaintext. -/
theorem signUp_spec (db : DB) (salt : Nat) (email password : Option String) :
    ((falsy email || falsy password) = true →
      signUp db salt email password =
        (⟨400, .message "Email and password are required."⟩, db)) ∧
    (∀ u, (falsy email || falsy password) = false →
      db.users.find? (fun v => v.email == normalizeEmail (email.getD "")) = some u →
      signUp db salt email password = (⟨409, .message "Email already in use."⟩, db)) ∧
    ((falsy email || falsy password) = false →
      db.users.find? (fun v => v.email == normalizeEmail (email.getD "")) = none →
      signUp db salt email password =
        (⟨201, .message "User created successfully."⟩,
          { db with
              users := db.users ++
                [⟨db.nextId, normalizeEmail (email.getD ""),
                  bcryptHash salt (password.getD "")⟩]
              nextId := db.nextId + 1 }) ∧
      bcryptCompare (password.getD "") (bcryptHash salt (password.getD "")) = true) := by
  refine ⟨?_, ?_, ?_⟩
  · intro h
    simp [signUp, h]
  · intro u h hfind
    simp [signUp, h, hfind]
  · intro h hfind
    exact ⟨by simp [signUp, h, hfind], by simp [bcryptCompare, bcryptHash]⟩

/-- Witness for C6: against `dbA`, an empty password is rejected 400, the
taken email is rejected 409, and a fresh email creates exactly one user
hashed from the submitted password. -/
theorem signUp_spec_witness :
    signUp dbA 9 (some "b@x.com") (some "") =
      (⟨400, .message "Email and password are required."⟩, dbA) ∧
    signUp dbA 9 (some "a@x.com") (some "other-pw") =
      (⟨409, .message "Email already in use."⟩, dbA) ∧
    signUp dbA 9 (some "b@x.com") (some "pw-b") =
      (⟨201, .message "User created successfully."⟩,
        { dbA with
            users := dbA.users ++ [⟨8, "b@x.com", bcryptHash 9 "pw-b"⟩]
            nextId := 9 }) :=
  ⟨(signUp_spec dbA 9 (some "b@x.com") (some "")).1 (by decide),
   (signUp_spec dbA 9 (some "a@x.com") (some "other-pw")).2.1
      ⟨7, "a@x.com", bcryptHash 3 "pw123"⟩ (by decide) (by decide),
   by
    have h := ((signUp_spec dbA 9 (some "b@x.com") (some "pw-b")).2.2
      (by decide) (by decide)).1
    rw [h]
    rfl⟩

/-- C7: the access guard denies with 401 before any further processing
when the header or its token segment is absent, denies with 403 when
verification under the access key fails, and otherwise hands the decoded
payload to the downstream handler, which then runs.  The guard takes no
database argument at all, and the response of a guarded route is
independent of the database: ledger state cannot affect its outcome. -/
theorem authenticateToken_spec (env : Env) (db db' : DB) (now : Nat) (header : AuthHeader) :
    (header = none →
      authenticateToken env now header =
        .denied ⟨401, .text "Authorization failed. No access token."⟩) ∧
    (header = some none →
      authenticateToken env now header =
        .denied ⟨401, .text "Authorization failed. No access token."⟩) ∧
    (∀ t e, header = some (some t) →
      jwtVerify t env.JWT_SECRET now = .error e →
      authenticateToken env now header = .denied ⟨403, .text "Invalid token"⟩) ∧
    (∀ t p, header = some (some t) →
      jwtVerify t env.JWT_SECRET now = .ok p →
      authenticateToken env now header = .allowed p ∧
      protectedRoute env db now header =
        (⟨200, .protectedInfo "This is a protected route" p⟩, db)) ∧
    (protectedRoute env db now header).1 = (protectedRoute env db' now header).1 ∧
    (protectedRoute env db now header).2 = db := by
  refine ⟨?_, ?_, ?_, ?_, ?_, ?_⟩
  · intro h
    subst h
    rfl
  · intro h
    subst h
    rfl
  · intro t e h hver
    subst h
    simp [authenticateToken, hver]
  · intro t p h hver
    subst h
    exact ⟨by simp [authenticateToken, hver],
      by simp [protectedRoute, authenticateToken, hver]⟩
  · cases hg : authenticateToken env now header <;> simp [protectedRoute, hg]
  · cases hg : authenticateToken env now header <;> simp [protectedRoute, hg]

/-- Witness for C7: a missing header is denied 401, and a valid access
token for user 7 reaches the protected handler with subject 7, with the
same response over two different databases. -/
theorem authenticateToken_spec_witness :
    authenticateToken envA 5 none =
      .denied ⟨401, .text "Authorization failed. No access token."⟩ ∧
    authenticateToken envA 5 (some (some (jwtSign 7 "access-key" 0 (some 3600000)))) =
      .allowed ⟨7, 0, some 3600000⟩ ∧
    (protectedRoute envA dbA 5 (some (some (jwtSign 7 "access-key" 0 (some 3600000))))).1 =
      (protectedRoute envA { dbA with refreshTokens := [], resetTokens := [] } 5
        (some (some (jwtSign 7 "access-key" 0 (some 3600000))))).1 :=
  ⟨(authenticateToken_spec envA dbA dbA 5 none).1 rfl,
   ((authenticateToken_spec envA dbA dbA 5
      (some (some (jwtSign 7 "access-key" 0 (some 3600000))))).2.2.2.1
      (jwtSign 7 "access-key" 0 (some 3600000)) ⟨7, 0, some 3600000⟩ rfl (by rfl)).1,
   (authenticateToken_spec envA dbA { dbA with refreshTokens := [], resetTokens := [] } 5
      (some (some (jwtSign 7 "access-key" 0 (some 3600000))))).2.2.2.2.1⟩

/-- C8: registration followed by authentication round-trips.  For a
non-empty email and password whose normalised email is not yet stored,
`POST /sign-up` succeeds 201, and `POST /sign-in` with the same pair then
succeeds 200, returning an access token and a refresh token for the new
user; the access token verifies under the access key at issuance time
with the new user's identifier as subject, and the refresh token is
persisted in the ledger with a 14-day expiry. -/
theorem register_then_authenticate (env : Env) (db : DB) (salt now : Nat) (e p : String)
    (he : e ≠ "") (hp : p ≠ "")
    (hfree : db.users.find? (fun u => u.email == normalizeEmail e) = none) :
    (signUp db salt (some e) (some p)).1 = ⟨201, .message "User created successfully."⟩ ∧
    (signIn env (signUp db salt (some e) (some p)).2 now (some e) (some p)).1 =
      ⟨200, .signedIn "User logged in successfully."
        (jwtSign db.nextId env.JWT_SECRET now (some 3600000))
        (jwtSign db.nextId env.REFRESH_TOKEN_SECRET now none)⟩ ∧
    jwtVerify (jwtSign db.nextId env.JWT_SECRET now (some 3600000)) env.JWT_SECRET now =
      .ok ⟨db.nextId, now, some (now + 3600000)⟩ ∧
    (signIn env (signUp db salt (some e) (some p)).2 now (some e) (some p)).2.refreshTokens =
      (signUp db salt (some e) (some p)).2.refreshTokens ++
        [⟨jwtSign db.nextId env.REFRESH_TOKEN_SECRET now none, db.nextId,
          now + 14 * 24 * 60 * 60 * 1000⟩] := by
  have hup : signUp db salt (some e) (some p) =
      (⟨201, .message "User created successfully."⟩,
        { db with
            users := db.users ++ [⟨db.nextId, normalizeEmail e, bcryptHash salt p⟩]
            nextId := db.nextId + 1 }) := by
    simp [signUp, falsy, he, hp, hfree]
  refine ⟨by rw [hup], ?_, ?_, ?_⟩
  · rw [hup]
    simp [signIn, falsy, he, hp, hfree, bcryptCompare, bcryptHash]
  · have hlt : ¬ (now + 3600000 ≤ now) := by omega
    simp [jwtVerify, jwtSign, hlt]
  · rw [hup]
    simp [signIn, falsy, he, hp, hfree, bcryptCompare, bcryptHash]

/-- Witness for C8: on an empty database, registering `a@x.com` and then
signing in with the same credentials returns the expected access and
refresh tokens for the new user (id 0). -/
theorem register_then_authenticate_witness :
    (signUp ⟨[], [], [], 0⟩ 1 (some "a@x.com") (some "pw123")).1 =
      ⟨201, .message "User created successfully."⟩ ∧
    (signIn envA (signUp ⟨[], [], [], 0⟩ 1 (some "a@x.com") (some "pw123")).2 2
        (some "a@x.com") (some "pw123")).1 =
      ⟨200, .signedIn "User logged in successfully."
        (jwtSign 0 "access-key" 2 (some 3600000))
        (jwtSign 0 "refresh-key" 2 none)⟩ :=
  ⟨(register_then_authenticate envA ⟨[], [], [], 0⟩ 1 2 "a@x.com" "pw123"
      (by decide) (by decide) (by decide)).1,
   (register_then_authenticate envA ⟨[], [], [], 0⟩ 1 2 "a@x.com" "pw123"
      (by decide) (by decide) (by decide)).2.1⟩

/-- C9: `DELETE /delete-user` for a verified subject removes that user's
own user document and exactly the refresh-token records that user owns,
and nothing else: every reset-token record survives, users with other
identifiers survive, refresh-token records of other users survive, and
no surviving user (given distinct stored ids) or refresh-token record
carries the deleted identifier. -/
theorem deleteUser_frame (env : Env) (db : DB) (now : Nat) (t : Jwt) (p : Payload)
    (hver : jwtVerify t env.JWT_SECRET now = .ok p)
    (hids : db.users.Pairwise (fun a b => a.id ≠ b.id)) :
    (deleteUserRoute env db now (some (some t))).1 =
      ⟨200, .message "User deleted successfully."⟩ ∧
    (deleteUserRoute env db now (some (some t))).2.resetTokens = db.resetTokens ∧
    (deleteUserRoute env db now (some (some t))).2.users =
      deleteFirst (fun u => u.id == p.userId) db.users ∧
    (deleteUserRoute env db now (some (some t))).2.refreshTokens =
      db.refreshTokens.filter (fun r => !(r.user == p.userId)) ∧
    (∀ u ∈ (deleteUserRoute env db now (some (some t))).2.users, u.id ≠ p.userId) ∧
    (∀ u ∈ db.users, u.id ≠ p.userId →
      u ∈ (deleteUserRoute env db now (some (some t))).2.users) ∧
    (∀ r ∈ (deleteUserRoute env db now (some (some t))).2.refreshTokens,
      r.user ≠ p.userId) ∧
    (∀ r ∈ db.refreshTokens, r.user ≠ p.userId →
      r ∈ (deleteUserRoute env db now (some (some t))).2.refreshTokens) ∧
    (deleteUserRoute env db now (some (some t))).2.nextId = db.nextId := by
  have hroute : deleteUserRoute env db now (some (some t)) =
      (⟨200, .message "User deleted successfully."⟩,
        { db with
            users := deleteFirst (fun u => u.id == p.userId) db.users
            refreshTokens := db.refreshTokens.filter (fun r => !(r.user == p.userId)) }) := by
    simp [deleteUserRoute, authenticateToken, hver]
  rw [hroute]
  refine ⟨rfl, rfl, rfl, rfl, ?_, ?_, ?_, ?_, rfl⟩
  · exact deleteFirst_id_ne hids
  · intro u hu hne
    exact mem_deleteFirst_of_mem hu (by simpa using hne)
  · intro r hr
    simpa using (List.mem_filter.mp hr).2
  · intro r hr hne
    exact List.mem_filter.mpr ⟨hr, by simpa using hne⟩

/-- Witness for C9: deleting user 7 in `dbA` empties its user list and
refresh-token ledger while the reset-token record survives. -/
theorem deleteUser_frame_witness :
    (deleteUserRoute envA dbA 5 (some (some (jwtSign 7 "access-key" 0 (some 3600000))))).1 =
      ⟨200, .message "User deleted successfully."⟩ ∧
    (deleteUserRoute envA dbA 5
        (some (some (jwtSign 7 "access-key" 0 (some 3600000))))).2.resetTokens =
      dbA.resetTokens :=
  ⟨(deleteUser_frame envA dbA 5 (jwtSign 7 "access-key" 0 (some 3600000))
      ⟨7, 0, some 3600000⟩ (by rfl) (by simp [dbA])).1,
   (deleteUser_frame envA dbA 5 (jwtSign 7 "access-key" 0 (some 3600000))
      ⟨7, 0, some 3600000⟩ (by rfl) (by simp [dbA])).2.1⟩

/-- C10: the ledger expiry bound is exclusive.  When the ledger holds a
record for the presented token, `POST /token` answers 401 exactly when
the record's `expiryDate` is less than or equal to the current time, and
likewise `POST /reset-password/:token` (with a non-empty new password):
a record whose expiry equals the current instant is already rejected, and
the token is honoured only while `expiryDate` is strictly in the
future. -/
theorem ledger_expiry_exclusive (env : Env) (db : DB) (now salt : Nat) (tok : Jwt)
    (pw : String) (hpw : pw ≠ "") :
    (∀ stored, db.refreshTokens.find? (fun r => r.token == tok) = some stored →
      ((tokenRoute env db now (some tok)).1.status = 401 ↔ stored.expiryDate ≤ now)) ∧
    (∀ stored, db.resetTokens.find? (fun r => r.token == tok) = some stored →
      ((resetPasswordConfirm env db now salt tok (some pw)).1.status = 401 ↔
        stored.expiryDate ≤ now)) := by
  constructor
  · intro stored h
    by_cases hle : stored.expiryDate ≤ now
    · simp [tokenRoute, h, hle]
    · cases hv : jwtVerify tok env.REFRESH_TOKEN_SECRET now <;>
        simp [tokenRoute, h, hle, hv]
  · intro stored h
    by_cases hle : stored.expiryDate ≤ now
    · simp [resetPasswordConfirm, falsy, hpw, h, hle]
    · cases hv : jwtVerify tok env.RESET_TOKEN_SECRET now with
      | error e => simp [resetPasswordConfirm, falsy, hpw, h, hle, hv]
      | ok decoded =>
        cases hu : db.users.find? (fun u => u.id == decoded.userId) <;>
          simp [resetPasswordConfirm, falsy, hpw, h, hle, hv, hu]

/-- Witness for C10: in `dbA`, at the very instant of the ledger expiry
(100 for the refresh record, 50 for the reset record) both routes already
answer 401. -/
theorem ledger_expiry_exclusive_witness :
    (tokenRoute envA dbA 100 (some tokA)).1.status = 401 ∧
    (resetPasswordConfirm envA dbA 50 1 tokR (some "x")).1.status = 401 :=
  ⟨((ledger_expiry_exclusive envA dbA 100 1 tokA "x" (by decide)).1 ⟨tokA, 7, 100⟩
      (by decide)).mpr (by decide),
   ((ledger_expiry_exclusive envA dbA 50 1 tokR "x" (by decide)).2 ⟨tokR, 7, 50⟩
      (by decide)).mpr (by decide)⟩

end JwtAuth
